import Mathlib

/-!
Verification development for the nucypher crypto constants module
(src/nucypher/crypto/constants.py) and the artifact codec / parameter-table /
hash-primitive layer its specification describes.

Bytes are modelled as lists of natural numbers (each entry a byte value);
64-bit machine words are natural numbers reduced modulo 2 ^ 64 at every
operation where overflow matters.
-/

namespace Nucypher

/-! ## Parameter Table constants (from src/nucypher/crypto/constants.py) -/

/-- Source line: BLAKE2B_DIGEST_LENGTH = 64. -/
def BLAKE2B_DIGEST_LENGTH : Nat := 64

/-- Source line: KECCAK_DIGEST_LENGTH = 32. -/
def KECCAK_DIGEST_LENGTH : Nat := 32

/-- Source line: CAPSULE_LENGTH(98) — the capsule byte length for secp256k1. -/
def CAPSULE_LENGTH : Nat := 98

/-- Source line: PUBLIC_KEY_LENGTH(33) — compressed secp256k1 point length. -/
def PUBLIC_KEY_LENGTH : Nat := 33

/-- Named hash algorithm identities used by the constants module. -/
inductive HashAlgorithm where
  | blake2b
  | keccak
deriving DecidableEq, Repr

/-- A hash construction: an algorithm identity together with the digest
size fixed at selection time (spec section 3, HashConstruction). -/
structure HashConstruction where
  algorithm : HashAlgorithm
  digest_size : Nat
deriving DecidableEq, Repr

/-- Source line: BLAKE2B = hashes.BLAKE2b(64) — the BLAKE2b construction
instantiated with digest size 64. -/
def BLAKE2B : HashConstruction := ⟨HashAlgorithm.blake2b, 64⟩

/-! ## Artifact kinds and the Parameter Table

The four artifact kinds named by the constants module. The KFrag and
CFrag-without-proof lengths are imported from an external constants
library and are given no numeric value in the visible source; following
the spec they are treated as named constants resolved once at
initialization, so the table carries them as fields while the PublicKey
and Capsule lengths are the compiled-in constants above. -/

inductive ArtifactKind where
  | PublicKey
  | Capsule
  | KFrag
  | CFragWithoutProof
deriving DecidableEq, Repr

/-- Modelled from the spec: the Parameter Table exposes, for secp256k1, the
byte lengths of the four artifact kinds; the KFrag and CFrag-without-proof
lengths are resolved at initialization (their numeric values are absent
from the visible source). -/
structure ParameterTable where
  kfrag_length : Nat
  cfrag_length_without_proof : Nat
deriving DecidableEq, Repr

/-- Modelled from the spec: ParameterTable.length_for maps each artifact
kind to its fixed expected byte length. -/
def ParameterTable.length_for (t : ParameterTable) : ArtifactKind → Nat
  | ArtifactKind.PublicKey => PUBLIC_KEY_LENGTH
  | ArtifactKind.Capsule => CAPSULE_LENGTH
  | ArtifactKind.KFrag => t.kfrag_length
  | ArtifactKind.CFragWithoutProof => t.cfrag_length_without_proof

/-- Modelled from the spec: InitializationError — the Parameter Table could
not establish consistent constants for the selected curve (fatal, raised
once at startup). -/
inductive InitializationError where
  | unsetConstant (kind : ArtifactKind)
  | inconsistentConstant (kind : ArtifactKind) (expected actual : Nat)
  | zeroLengthConstant (kind : ArtifactKind)
deriving DecidableEq, Repr

/-- Modelled from the spec: Parameter Table initialization, absent from the
visible source. Each of the four length constants is supplied as an
optional candidate value; initialization fails fast with an
InitializationError if any is unset, if the PublicKey or Capsule candidate
contradicts the compiled-in secp256k1 expectation (33 and 98), or if a
resolved length is zero (no artifact kind has length 0). -/
def initParameterTable (pk caps kf cf : Option Nat) :
    Except InitializationError ParameterTable :=
  match pk, caps, kf, cf with
  | none, _, _, _ => Except.error (InitializationError.unsetConstant ArtifactKind.PublicKey)
  | _, none, _, _ => Except.error (InitializationError.unsetConstant ArtifactKind.Capsule)
  | _, _, none, _ => Except.error (InitializationError.unsetConstant ArtifactKind.KFrag)
  | _, _, _, none => Except.error (InitializationError.unsetConstant ArtifactKind.CFragWithoutProof)
  | some p, some c, some k, some f =>
    if p ≠ PUBLIC_KEY_LENGTH then
      Except.error (InitializationError.inconsistentConstant ArtifactKind.PublicKey PUBLIC_KEY_LENGTH p)
    else if c ≠ CAPSULE_LENGTH then
      Except.error (InitializationError.inconsistentConstant ArtifactKind.Capsule CAPSULE_LENGTH c)
    else if k = 0 then
      Except.error (InitializationError.zeroLengthConstant ArtifactKind.KFrag)
    else if f = 0 then
      Except.error (InitializationError.zeroLengthConstant ArtifactKind.CFragWithoutProof)
    else
      Except.ok ⟨k, f⟩

/-! ## Artifact Codec (modelled from the spec, section 4.3) -/

/-- Modelled from the spec: an immutable typed handle owning the validated
bytes of one artifact. -/
structure ArtifactHandle where
  kind : ArtifactKind
  data : List Nat
deriving DecidableEq, Repr

/-- Modelled from the spec: LengthMismatchError carries the artifact kind
and the expected and actual byte lengths. -/
inductive CodecError where
  | lengthMismatch (kind : ArtifactKind) (expected actual : Nat)
deriving DecidableEq, Repr

/-- Modelled from the spec: decode validates the input length against the
Parameter Table entry for the requested kind; on success it wraps the exact
bytes in a handle, on mismatch it fails with a LengthMismatchError and
never truncates or pads. -/
def decode (t : ParameterTable) (kind : ArtifactKind) (b : List Nat) :
    Except CodecError ArtifactHandle :=
  if b.length = t.length_for kind then
    Except.ok ⟨kind, b⟩
  else
    Except.error (CodecError.lengthMismatch kind (t.length_for kind) b.length)

/-- Modelled from the spec: encode returns the handle's exact backing
bytes. -/
def encode (h : ArtifactHandle) : List Nat := h.data

/-! ## Hash primitives

The source pins a BLAKE2b construction with digest size 64 and names a
32-byte Keccak digest via KECCAK_DIGEST_LENGTH. Both algorithms are
embedded here in full: BLAKE2b follows RFC 7693 (unkeyed, 64-byte digest)
and keccak_256 is the original Keccak with rate 1088 and padding byte
0x01. 64-bit words are naturals reduced modulo 2 ^ 64. -/

/-- 64-bit modular addition. -/
def add64 (a b : Nat) : Nat := (a + b) % 2 ^ 64

/-- Rotate a 64-bit word right by n bits (0 ≤ n < 64). -/
def rotr64 (x n : Nat) : Nat := Nat.lor (x / 2 ^ n) (x * 2 ^ (64 - n) % 2 ^ 64)

/-- Rotate a 64-bit word left by n bits (0 ≤ n < 64). -/
def rotl64 (x n : Nat) : Nat := Nat.lor (x * 2 ^ n % 2 ^ 64) (x / 2 ^ (64 - n))

/-- Interpret a list of bytes as a little-endian word (first byte least
significant). -/
def bytesToWordLE (bs : List Nat) : Nat := bs.foldr (fun b acc => b + 256 * acc) 0

/-- Serialize a 64-bit word as 8 little-endian bytes. -/
def wordLEBytes (x : Nat) : List Nat :=
  [x % 256, x / 2 ^ 8 % 256, x / 2 ^ 16 % 256, x / 2 ^ 24 % 256,
   x / 2 ^ 32 % 256, x / 2 ^ 40 % 256, x / 2 ^ 48 % 256, x / 2 ^ 56 % 256]

/-- BLAKE2b initialization vector (RFC 7693 section 2.6). -/
def BLAKE2B_IV : List Nat :=
  [0x6A09E667F3BCC908, 0xBB67AE8584CAA73B] ++
  [0x3C6EF372FE94F82B, 0xA54FF53A5F1D36F1] ++
  [0x510E527FADE682D1, 0x9B05688C2B3E6C1F] ++
  [0x1F83D9ABFB41BD6B, 0x5BE0CD19137E2179]

/-- BLAKE2b message schedule sigma (RFC 7693 section 2.7). -/
def BLAKE2B_SIGMA : List (List Nat) :=
  [[0, 1, 2, 3, 4, 5, 6, 7, 8, 9, 10, 11, 12, 13, 14, 15],
   [14, 10, 4, 8, 9, 15, 13, 6, 1, 12, 0, 2, 11, 7, 5, 3],
   [11, 8, 12, 0, 5, 2, 15, 13, 10, 14, 3, 6, 7, 1, 9, 4],
   [7, 9, 3, 1, 13, 12, 11, 14, 2, 6, 5, 10, 4, 0, 15, 8],
   [9, 0, 5, 7, 2, 4, 10, 15, 14, 1, 11, 12, 6, 8, 3, 13],
   [2, 12, 6, 10, 0, 11, 8, 3, 4, 13, 7, 5, 15, 14, 1, 9],
   [12, 5, 1, 15, 14, 13, 4, 10, 0, 7, 6, 3, 9, 2, 8, 11],
   [13, 11, 7, 14, 12, 1, 3, 9, 5, 0, 15, 4, 8, 6, 2, 10],
   [6, 15, 14, 9, 11, 3, 0, 8, 12, 2, 13, 7, 1, 4, 10, 5],
   [10, 2, 8, 4, 7, 6, 1, 5, 15, 11, 9, 14, 3, 12, 13, 0]]

/-- BLAKE2b mixing function G acting on working-vector positions a b c d
with message words x y (RFC 7693 section 3.1). -/
def blakeG (v : List Nat) (a b c d : Nat) (x y : Nat) : List Nat :=
  let va := add64 (add64 (v.getD a 0) (v.getD b 0)) x
  let vd := rotr64 (Nat.xor (v.getD d 0) va) 32
  let vc := add64 (v.getD c 0) vd
  let vb := rotr64 (Nat.xor (v.getD b 0) vc) 24
  let va := add64 (add64 va vb) y
  let vd := rotr64 (Nat.xor vd va) 16
  let vc := add64 vc vd
  let vb := rotr64 (Nat.xor vb vc) 63
  ((((v.set a va).set b vb).set c vc).set d vd)

/-- One BLAKE2b round: eight G applications with message words selected by
the sigma row for the round. -/
def blakeRound (m : List Nat) (v : List Nat) (r : Nat) : List Nat :=
  let s := BLAKE2B_SIGMA.getD (r % 10) []
  let g := fun i => m.getD (s.getD i 0) 0
  let v := blakeG v 0 4 8 12 (g 0) (g 1)
  let v := blakeG v 1 5 9 13 (g 2) (g 3)
  let v := blakeG v 2 6 10 14 (g 4) (g 5)
  let v := blakeG v 3 7 11 15 (g 6) (g 7)
  let v := blakeG v 0 5 10 15 (g 8) (g 9)
  let v := blakeG v 1 6 11 12 (g 10) (g 11)
  let v := blakeG v 2 7 8 13 (g 12) (g 13)
  let v := blakeG v 3 4 9 14 (g 14) (g 15)
  v

/-- BLAKE2b compression function F (RFC 7693 section 3.2): state h, one
128-byte block, byte counter t, finalization flag. -/
def blakeCompress (h : List Nat) (block : List Nat) (t : Nat) (final : Bool) :
    List Nat :=
  let m := (List.range 16).map (fun i => bytesToWordLE ((block.drop (8 * i)).take 8))
  let v := (List.range 8).map (fun i => h.getD i 0) ++ BLAKE2B_IV
  let v := v.set 12 (Nat.xor (v.getD 12 0) (t % 2 ^ 64))
  let v := v.set 13 (Nat.xor (v.getD 13 0) (t / 2 ^ 64 % 2 ^ 64))
  let v := if final then v.set 14 (Nat.xor (v.getD 14 0) (2 ^ 64 - 1)) else v
  let v := (List.range 12).foldl (blakeRound m) v
  (List.range 8).map (fun i => Nat.xor (h.getD i 0) (Nat.xor (v.getD i 0) (v.getD (i + 8) 0)))

/-- BLAKE2b block loop (RFC 7693 section 3.3): compress full 128-byte
blocks with a running byte counter, zero-pad the final partial block and
compress it with the total length and the final flag set. -/
def blake2bLoop (h : List Nat) (t : Nat) (b : List Nat) : List Nat :=
  if hb : b.length ≤ 128 then
    blakeCompress h (b ++ List.replicate (128 - b.length) 0) (t + b.length) true
  else
    blake2bLoop (blakeCompress h (b.take 128) (t + 128) false) (t + 128) (b.drop 128)
termination_by b.length
decreasing_by
  simp only [List.length_drop]
  omega

/-- BLAKE2b initial state for the unkeyed 64-byte-digest parameter block:
IV with h0 xored with 0x01010000 + digest length 64 (RFC 7693 section 2.5).
This digest-size parameter is the 64 of the source construction
hashes.BLAKE2b(64). -/
def blake2bInit : List Nat :=
  BLAKE2B_IV.set 0 (Nat.xor (BLAKE2B_IV.getD 0 0) (Nat.xor 0x01010000 64))

/-- The blake2b_64 hash primitive: BLAKE2b, unkeyed, digest size 64 bytes,
as selected by the source line BLAKE2B = hashes.BLAKE2b(64). The digest is
the little-endian serialization of the eight final state words. -/
def blake2b_64 (b : List Nat) : List Nat :=
  let h := blake2bLoop blake2bInit 0 b
  wordLEBytes (h.getD 0 0) ++ wordLEBytes (h.getD 1 0) ++ wordLEBytes (h.getD 2 0) ++
  wordLEBytes (h.getD 3 0) ++ wordLEBytes (h.getD 4 0) ++ wordLEBytes (h.getD 5 0) ++
  wordLEBytes (h.getD 6 0) ++ wordLEBytes (h.getD 7 0)

/-- Keccak-f[1600] round constants. -/
def KECCAK_RC : List Nat :=
  [0x1, 0x8082, 0x800000000000808A] ++
  [0x8000000080008000, 0x808B, 0x80000001] ++
  [0x8000000080008081, 0x8000000000008009, 0x8A] ++
  [0x88, 0x80008009, 0x8000000A] ++
  [0x8000808B, 0x800000000000008B, 0x8000000000008089] ++
  [0x8000000000008003, 0x8000000000008002, 0x8000000000000080] ++
  [0x800A, 0x800000008000000A, 0x8000000080008081] ++
  [0x8000000000008080, 0x80000001, 0x8000000080008008]

/-- Keccak rotation offsets for lane (x, y) at list index x + 5 * y, one
row of the 5 times 5 state per bracketed group. -/
def KECCAK_RHO : List Nat :=
  [0, 1, 62, 28, 27] ++
  [36, 44, 6, 55, 20] ++
  [3, 10, 43, 25, 39] ++
  [41, 45, 15, 21, 8] ++
  [18, 2, 61, 56, 14]

/-- Keccak theta step on a 25-lane state (index x + 5 * y). -/
def keccakTheta (A : List Nat) : List Nat :=
  let C := (List.range 5).map (fun x =>
    Nat.xor (A.getD x 0) (Nat.xor (A.getD (x + 5) 0)
      (Nat.xor (A.getD (x + 10) 0) (Nat.xor (A.getD (x + 15) 0) (A.getD (x + 20) 0)))))
  let D := (List.range 5).map (fun x =>
    Nat.xor (C.getD ((x + 4) % 5) 0) (rotl64 (C.getD ((x + 1) % 5) 0) 1))
  (List.range 25).map (fun i => Nat.xor (A.getD i 0) (D.getD (i % 5) 0))

/-- Keccak rho and pi steps combined: the new lane (X, Y) is the old lane
(X + 3Y mod 5, X) rotated by its rho offset. -/
def keccakRhoPi (A : List Nat) : List Nat :=
  (List.range 25).map (fun j =>
    let x := (j % 5 + 3 * (j / 5)) % 5
    let y := j % 5
    rotl64 (A.getD (x + 5 * y) 0) (KECCAK_RHO.getD (x + 5 * y) 0))

/-- Keccak chi step: each lane is xored with the conjunction of the
complement of its right neighbour in the row and the lane two to the
right. -/
def keccakChi (B : List Nat) : List Nat :=
  (List.range 25).map (fun j =>
    Nat.xor (B.getD j 0)
      (Nat.land (Nat.xor (B.getD ((j % 5 + 1) % 5 + 5 * (j / 5)) 0) (2 ^ 64 - 1))
        (B.getD ((j % 5 + 2) % 5 + 5 * (j / 5)) 0)))

/-- One Keccak-f round: theta, rho, pi, chi, then iota (round constant into
lane 0). -/
def keccakRound (A : List Nat) (r : Nat) : List Nat :=
  let B := keccakChi (keccakRhoPi (keccakTheta A))
  B.set 0 (Nat.xor (B.getD 0 0) (KECCAK_RC.getD r 0))

/-- The Keccak-f[1600] permutation: 24 rounds. -/
def keccakF (A : List Nat) : List Nat := (List.range 24).foldl keccakRound A

/-- Absorb one 136-byte block into the state by xoring its 17 words into
the first 17 lanes. -/
def keccakXorBlock (A : List Nat) (block : List Nat) : List Nat :=
  (List.range 25).map (fun i =>
    if i < 17 then Nat.xor (A.getD i 0) (bytesToWordLE ((block.drop (8 * i)).take 8))
    else A.getD i 0)

/-- Original Keccak multi-rate padding for rate 136: append 0x01, zero or
more zero bytes, and a final 0x80 (collapsed to a single 0x81 when one
byte of padding is needed). -/
def keccakPad (m : List Nat) : List Nat :=
  let p := 136 - m.length % 136
  if p = 1 then m ++ [0x81]
  else m ++ [0x01] ++ List.replicate (p - 2) 0 ++ [0x80]

/-- Absorb a padded message (a positive multiple of 136 bytes) block by
block. -/
def keccakAbsorb (A : List Nat) (b : List Nat) : List Nat :=
  if hb : b = [] then A
  else keccakAbsorb (keccakF (keccakXorBlock A (b.take 136))) (b.drop 136)
termination_by b.length
decreasing_by
  simp only [List.length_drop]
  have hpos : 0 < b.length := List.length_pos.mpr hb
  omega

/-- The keccak_256 hash primitive named by KECCAK_DIGEST_LENGTH: original
Keccak (padding byte 0x01) with capacity 512, squeezing a 32-byte digest,
which is the little-endian serialization of the first four lanes. -/
def keccak_256 (b : List Nat) : List Nat :=
  let A := keccakAbsorb (List.replicate 25 0) (keccakPad b)
  wordLEBytes (A.getD 0 0) ++ wordLEBytes (A.getD 1 0) ++
  wordLEBytes (A.getD 2 0) ++ wordLEBytes (A.getD 3 0)

/-! ## Process-wide state (modelled from the spec, sections 3 and 5)

The Parameter Table is the only shared resource; the operation wrappers
below make the statelessness of decode/encode/hash calls explicit by
returning the process state alongside each result. -/

/-- Modelled from the spec: the process-wide state, holding the Parameter
Table established at initialization. -/
structure ProcessState where
  table : ParameterTable
deriving DecidableEq, Repr

/-- Modelled from the spec: decode as an operation on the process state. -/
def decodeOp (s : ProcessState) (kind : ArtifactKind) (b : List Nat) :
    Except CodecError ArtifactHandle × ProcessState :=
  (decode s.table kind b, s)

/-- Modelled from the spec: encode as an operation on the process state. -/
def encodeOp (s : ProcessState) (h : ArtifactHandle) : List Nat × ProcessState :=
  (encode h, s)

/-- Modelled from the spec: blake2b_64 as an operation on the process
state. -/
def blake2bOp (s : ProcessState) (b : List Nat) : List Nat × ProcessState :=
  (blake2b_64 b, s)

/-- Modelled from the spec: keccak_256 as an operation on the process
state. -/
def keccakOp (s : ProcessState) (b : List Nat) : List Nat × ProcessState :=
  (keccak_256 b, s)

/-! ## Helper lemmas -/

/-- Serializing a 64-bit word always yields exactly 8 bytes. -/
theorem length_wordLEBytes (x : Nat) : (wordLEBytes x).length = 8 := rfl

/-- The blake2b_64 digest always has exactly 64 bytes. -/
theorem length_blake2b_64 (b : List Nat) : (blake2b_64 b).length = 64 := by
  simp [blake2b_64, wordLEBytes]

/-- The keccak_256 digest always has exactly 32 bytes. -/
theorem length_keccak_256 (b : List Nat) : (keccak_256 b).length = 32 := by
  simp [keccak_256, wordLEBytes]

/-! ## Claim theorems -/

/-- C1: For every Parameter Table, artifact kind K and byte sequence b,
decode succeeds exactly when the length of b equals the table's fixed
length for K (33 for PublicKey, 98 for Capsule); on success the handle
holds exactly the input bytes, and on any mismatch decode fails with a
LengthMismatchError carrying the kind and the expected and actual lengths,
never silently truncating or padding. -/
theorem C1_decode_length_validation (t : ParameterTable) (k : ArtifactKind)
    (b : List Nat) :
    ((∃ a, decode t k b = Except.ok a) ↔ b.length = t.length_for k) ∧
    (b.length = t.length_for k → decode t k b = Except.ok ⟨k, b⟩) ∧
    (b.length ≠ t.length_for k →
      decode t k b =
        Except.error (CodecError.lengthMismatch k (t.length_for k) b.length)) ∧
    t.length_for ArtifactKind.PublicKey = 33 ∧
    t.length_for ArtifactKind.Capsule = 98 := by
  refine ⟨⟨?_, ?_⟩, ?_, ?_, rfl, rfl⟩
  · rintro ⟨a, ha⟩
    by_contra hne
    simp [decode, hne] at ha
  · intro h
    exact ⟨⟨k, b⟩, by simp [decode, h]⟩
  · intro h
    simp [decode, h]
  · intro h
    simp [decode, h]

/-- Witness for C1: a one-byte input decoded as PublicKey fails with the
mismatch error reporting expected 33 and actual 1. -/
theorem C1_decode_length_validation_witness :
    decode ⟨5, 6⟩ ArtifactKind.PublicKey [0] =
      Except.error (CodecError.lengthMismatch ArtifactKind.PublicKey 33 1) :=
  (C1_decode_length_validation ⟨5, 6⟩ ArtifactKind.PublicKey [0]).2.2.1 (by decide)

/-- C2: Round-trip — for every valid artifact handle (one whose data
length matches the table entry for its kind), decoding the encoding of the
handle under its own kind succeeds and returns a handle byte-for-byte
equal to the original, and encode returns exactly the handle's backing
bytes. -/
theorem C2_encode_decode_roundtrip (t : ParameterTable) (h : ArtifactHandle)
    (hv : h.data.length = t.length_for h.kind) :
    decode t h.kind (encode h) = Except.ok h ∧ encode h = h.data := by
  obtain ⟨k, d⟩ := h
  exact ⟨by simp [decode, encode] at hv ⊢; simp [hv], rfl⟩

/-- Witness for C2 at a concrete 98-byte Capsule handle. -/
theorem C2_encode_decode_roundtrip_witness :
    decode ⟨1, 1⟩ ArtifactKind.Capsule
        (encode ⟨ArtifactKind.Capsule, List.replicate 98 0⟩) =
      Except.ok ⟨ArtifactKind.Capsule, List.replicate 98 0⟩ :=
  (C2_encode_decode_roundtrip ⟨1, 1⟩ ⟨ArtifactKind.Capsule, List.replicate 98 0⟩
    (by decide)).1

/-- C3: blake2b_64 returns exactly 64 bytes and keccak_256 exactly 32
bytes on every byte sequence, the empty one included; both are total Lean
functions with no error outcome, and the digest lengths equal the
advertised constants. -/
theorem C3_hash_digest_lengths (b : List Nat) :
    (blake2b_64 b).length = BLAKE2B_DIGEST_LENGTH ∧
    (keccak_256 b).length = KECCAK_DIGEST_LENGTH ∧
    BLAKE2B_DIGEST_LENGTH = 64 ∧ KECCAK_DIGEST_LENGTH = 32 :=
  ⟨length_blake2b_64 b, length_keccak_256 b, rfl, rfl⟩

/-- C4: Decoding any byte sequence whose length is not 33 as PublicKey
fails with the LengthMismatchError carrying expected 33, and the
PublicKey entry of every Parameter Table is exactly 33 bytes. -/
theorem C4_publicKey_decode_mismatch (t : ParameterTable) (b : List Nat)
    (h : b.length ≠ 33) :
    decode t ArtifactKind.PublicKey b =
      Except.error (CodecError.lengthMismatch ArtifactKind.PublicKey 33 b.length) ∧
    t.length_for ArtifactKind.PublicKey = 33 := by
  refine ⟨?_, rfl⟩
  have h33 : b.length ≠ t.length_for ArtifactKind.PublicKey := h
  simp [decode, h33]
  rfl

/-- Witness for C4: the empty input decoded as PublicKey fails with
expected 33 and actual 0. -/
theorem C4_publicKey_decode_mismatch_witness :
    decode ⟨1, 1⟩ ArtifactKind.PublicKey [] =
      Except.error (CodecError.lengthMismatch ArtifactKind.PublicKey 33 0) :=
  (C4_publicKey_decode_mismatch ⟨1, 1⟩ [] (by decide)).1

/-- C5: Decoding a 98-byte all-zero buffer as Capsule succeeds with a
handle whose encoding is the original 98 zero bytes, while decoding a
97-byte buffer as Capsule fails with a LengthMismatchError carrying
expected 98 and actual 97. -/
theorem C5_capsule_scenarios (t : ParameterTable) :
    decode t ArtifactKind.Capsule (List.replicate 98 0) =
      Except.ok ⟨ArtifactKind.Capsule, List.replicate 98 0⟩ ∧
    encode ⟨ArtifactKind.Capsule, List.replicate 98 0⟩ = List.replicate 98 0 ∧
    decode t ArtifactKind.Capsule (List.replicate 97 0) =
      Except.error (CodecError.lengthMismatch ArtifactKind.Capsule 98 97) := by
  refine ⟨?_, rfl, ?_⟩ <;>
    simp [decode, encode, ParameterTable.length_for, CAPSULE_LENGTH]

/-- C6: Parameter Table initialization succeeds exactly when all four
length constants are supplied and consistent — the PublicKey candidate
equals the compiled-in 33, the Capsule candidate equals the compiled-in
98, and the KFrag and CFrag-without-proof lengths are set and nonzero;
otherwise it fails with an InitializationError rather than proceeding
silently. -/
theorem C6_init_fails_fast (pk caps kf cf : Option Nat) :
    ((∃ t, initParameterTable pk caps kf cf = Except.ok t) ↔
      (pk = some 33 ∧ caps = some 98 ∧
        (∃ kv, kf = some kv ∧ 0 < kv) ∧ (∃ cv, cf = some cv ∧ 0 < cv))) ∧
    (∀ kv cv, 0 < kv → 0 < cv →
      initParameterTable (some 33) (some 98) (some kv) (some cv) =
        Except.ok ⟨kv, cv⟩) := by
  constructor
  · constructor
    · rintro ⟨t, ht⟩
      rcases pk with _ | p <;> rcases caps with _ | c <;>
        rcases kf with _ | k <;> rcases cf with _ | f <;>
        simp [initParameterTable] at ht
      split_ifs at ht with h1 h2 h3 h4 <;>
        simp_all [PUBLIC_KEY_LENGTH, CAPSULE_LENGTH] <;> omega
    · rintro ⟨rfl, rfl, ⟨kv, rfl, hk⟩, ⟨cv, rfl, hc⟩⟩
      have hk0 : kv ≠ 0 := by omega
      have hc0 : cv ≠ 0 := by omega
      exact ⟨⟨kv, cv⟩,
        by simp [initParameterTable, PUBLIC_KEY_LENGTH, CAPSULE_LENGTH, hk0, hc0]⟩
  · intro kv cv hk hc
    have hk0 : kv ≠ 0 := by omega
    have hc0 : cv ≠ 0 := by omega
    simp [initParameterTable, PUBLIC_KEY_LENGTH, CAPSULE_LENGTH, hk0, hc0]

/-- Witness for C6: consistent candidate constants initialize the table
with the supplied KFrag and CFrag lengths. -/
theorem C6_init_fails_fast_witness :
    initParameterTable (some 33) (some 98) (some 5) (some 7) = Except.ok ⟨5, 7⟩ :=
  (C6_init_fails_fast (some 33) (some 98) (some 5) (some 7)).2 5 7
    (by decide) (by decide)

/-- C7: Given a table whose entry for an artifact kind is positive (the
spec guarantees no artifact kind has length 0), zero-length input fails to
decode, and inputs exactly one byte shorter or longer than the expected
length fail with the same LengthMismatchError shape as any other
mismatch. -/
theorem C7_decode_edge_lengths (t : ParameterTable) (k : ArtifactKind)
    (hpos : 0 < t.length_for k) :
    decode t k [] = Except.error (CodecError.lengthMismatch k (t.length_for k) 0) ∧
    (∀ b : List Nat, b.length + 1 = t.length_for k →
      decode t k b =
        Except.error (CodecError.lengthMismatch k (t.length_for k) b.length)) ∧
    (∀ b : List Nat, b.length = t.length_for k + 1 →
      decode t k b =
        Except.error (CodecError.lengthMismatch k (t.length_for k) b.length)) := by
  refine ⟨?_, ?_, ?_⟩
  · have h0 : (0 : Nat) ≠ t.length_for k := by omega
    simp [decode, h0]
  · intro b hb
    have hne : b.length ≠ t.length_for k := by omega
    simp [decode, hne]
  · intro b hb
    have hne : b.length ≠ t.length_for k := by omega
    simp [decode, hne]

/-- Witness for C7: with a concrete table, the empty buffer fails to
decode as a Capsule with expected 98 and actual 0. -/
theorem C7_decode_edge_lengths_witness :
    decode ⟨4, 4⟩ ArtifactKind.Capsule [] =
      Except.error (CodecError.lengthMismatch ArtifactKind.Capsule 98 0) :=
  (C7_decode_edge_lengths ⟨4, 4⟩ ArtifactKind.Capsule (by decide)).1

/-- C8: Determinism of the hash primitives as a two-run property — equal
inputs yield byte-identical blake2b_64 and keccak_256 digests; both
primitives are pure functions of their input alone. -/
theorem C8_hash_determinism (b1 b2 : List Nat) (h : b1 = b2) :
    blake2b_64 b1 = blake2b_64 b2 ∧ keccak_256 b1 = keccak_256 b2 := by
  subst h
  exact ⟨rfl, rfl⟩

/-- Witness for C8 at the empty input. -/
theorem C8_hash_determinism_witness :
    blake2b_64 [] = blake2b_64 [] ∧ keccak_256 [] = keccak_256 [] :=
  C8_hash_determinism [] [] rfl

/-- C9: The codec and hash operations are stateless — each returns the
process state (hence the Parameter Table) unchanged; decode is determined
by the table alone, and a handle obtained from decode re-decodes to
itself through encode (idempotence / referential transparency). -/
theorem C9_stateless_operations (s : ProcessState) (k : ArtifactKind)
    (b : List Nat) (h : ArtifactHandle) (a : ArtifactHandle) :
    (decodeOp s k b).2 = s ∧ (encodeOp s h).2 = s ∧
    (blake2bOp s b).2 = s ∧ (keccakOp s b).2 = s ∧
    (decodeOp s k b).1 = decode s.table k b ∧
    (decode s.table k b = Except.ok a →
      decode s.table k (encode a) = Except.ok a) := by
  refine ⟨rfl, rfl, rfl, rfl, rfl, ?_⟩
  intro ha
  by_cases hc : b.length = s.table.length_for k
  · have ha' : a = ⟨k, b⟩ := by
      simp [decode, hc] at ha
      obtain ⟨k2, d2⟩ := a
      simp_all
    subst ha'
    simp [decode, encode, hc]
  · simp [decode, hc] at ha

/-- Witness for C9: concrete statelessness and re-decode stability for a
98-byte Capsule. -/
theorem C9_stateless_operations_witness :
    (decodeOp ⟨⟨1, 1⟩⟩ ArtifactKind.Capsule (List.replicate 98 0)).2 = ⟨⟨1, 1⟩⟩ ∧
    decode (ProcessState.table ⟨⟨1, 1⟩⟩) ArtifactKind.Capsule
        (encode ⟨ArtifactKind.Capsule, List.replicate 98 0⟩) =
      Except.ok ⟨ArtifactKind.Capsule, List.replicate 98 0⟩ :=
  ⟨(C9_stateless_operations ⟨⟨1, 1⟩⟩ ArtifactKind.Capsule (List.replicate 98 0)
      ⟨ArtifactKind.Capsule, []⟩ ⟨ArtifactKind.Capsule, List.replicate 98 0⟩).1,
   (C9_stateless_operations ⟨⟨1, 1⟩⟩ ArtifactKind.Capsule (List.replicate 98 0)
      ⟨ArtifactKind.Capsule, []⟩ ⟨ArtifactKind.Capsule, List.replicate 98 0⟩).2.2.2.2.2
      (by rfl)⟩

/-- C10: The BLAKE2B construction is built with digest size equal to the
named constant BLAKE2B_DIGEST_LENGTH (both 64), and the blake2b_64
primitive produces digests of exactly that size, so code selecting the
construction and code reading the constant agree. -/
theorem C10_blake2b_construction_consistency :
    BLAKE2B.digest_size = BLAKE2B_DIGEST_LENGTH ∧
    BLAKE2B_DIGEST_LENGTH = 64 ∧
    ∀ b : List Nat, (blake2b_64 b).length = BLAKE2B.digest_size :=
  ⟨rfl, rfl, fun b => length_blake2b_64 b⟩

end Nucypher
